import Mathlib

/-!
Verification of the Stylo.ai outfit-generation pipeline.

Shallow embedding of the three source files:
* `app.py` — the `/chat` Flask endpoint (`chat`, `fetch_google_shopping_products`,
  `fetch_specific_fallback_products`);
* `backend/styloAI.py` — `search_clothing`, `generate_outfit_visualization`, `main`;
* `backend/api.py` — the `/api/generate-outfit` FastAPI endpoint (`generate_outfit`).

External services (OpenAI completions, SerpAPI shopping search, Gemini image
synthesis, the filesystem) are modelled as oracles: each call site consumes an
`Except String _` value standing for the call's outcome (`.error e` models a
raised exception with message `e`).  Python strings are Lean `String`s; Python
`dict.get(k, d)` on possibly-missing JSON fields is `Option.getD`; Python
truthiness of a string is non-emptiness.  String primitives used by the code
(`in`, `.lower()`, `.replace(' ', '_')`, `.startswith`, `str(n)`) are embedded
below as structurally recursive functions so that all definitions evaluate.
-/

/-- Characters of `s` viewed as a list (used by the string primitives below). -/
def strChars (s : String) : List Char := s.data

/-- Does the first list start with the second?  (embedding helper for
Python's `in` and `.startswith`). -/
def leadMatch : List Char → List Char → Bool
  | _, [] => true
  | [], _ :: _ => false
  | c :: cs, d :: ds => c == d && leadMatch cs ds

/-- Does the needle occur as a contiguous substring of the haystack? -/
def subOccurs : List Char → List Char → Bool
  | [], needle => needle.isEmpty
  | c :: rest, needle => leadMatch (c :: rest) needle || subOccurs rest needle

/-- Embedding of Python's `needle in hay` on strings. -/
def strOccurs (hay needle : String) : Bool := subOccurs hay.data needle.data

/-- Embedding of Python's `s.startswith(p)`. -/
def strLeads (s p : String) : Bool := leadMatch s.data p.data

/-- ASCII lower-casing of one character (embedding of `str.lower` per char). -/
def charLower (c : Char) : Char :=
  if 'A' ≤ c ∧ c ≤ 'Z' then Char.ofNat (c.toNat + 32) else c

/-- Embedding of Python's `s.lower()`. -/
def strLower (s : String) : String := String.mk (s.data.map charLower)

/-- Embedding of Python's `s.replace(' ', '_')` (both call sites replace the
single character space by underscore). -/
def slugify (s : String) : String :=
  String.mk (s.data.map fun c => if c = ' ' then '_' else c)

/-- Embedding of Python's string truthiness: a string is truthy iff non-empty. -/
def strTruthy (s : String) : Bool := !s.data.isEmpty

/-- Embedding of Python's `sep.join(items)`. -/
def joinSep (sep : String) : List String → String
  | [] => ""
  | [s] => s
  | s :: r :: rest => s ++ sep ++ joinSep sep (r :: rest)

/-- Decimal digits of `n`, least significant first, with explicit fuel so the
recursion is structural (kernel-reducible). -/
def natDigitsAux : Nat → Nat → List Nat
  | 0, _ => []
  | _ + 1, 0 => []
  | fuel + 1, n + 1 => ((n + 1) % 10) :: natDigitsAux fuel ((n + 1) / 10)

/-- Character for one decimal digit (`'0'` has code 48). -/
def decDigitChar (d : Nat) : Char := Char.ofNat (48 + d)

/-- Embedding of Python's `str(n)` for a non-negative integer. -/
def natStr (n : Nat) : String :=
  if n = 0 then "0" else String.mk (((natDigitsAux n n).reverse).map decDigitChar)

/-- Value denoted by a little-endian decimal digit list (inverse used to prove
`natStr` injective). -/
def fromDecDigits : List Nat → Nat
  | [] => 0
  | d :: ds => d + 10 * fromDecDigits ds

theorem natDigitsAux_spec : ∀ fuel n, n ≤ fuel →
    fromDecDigits (natDigitsAux fuel n) = n := by
  intro fuel
  induction fuel with
  | zero => intro n hn; interval_cases n; rfl
  | succ f ih =>
    intro n hn
    match n with
    | 0 => rfl
    | m + 1 =>
      have hdiv : (m + 1) / 10 ≤ f := by
        have h1 : (m + 1) / 10 < m + 1 := Nat.div_lt_self (Nat.succ_pos m) (by omega)
        omega
      simp only [natDigitsAux, fromDecDigits, ih _ hdiv]
      omega

theorem natDigitsAux_lt10 : ∀ fuel n d, d ∈ natDigitsAux fuel n → d < 10 := by
  intro fuel
  induction fuel with
  | zero => intro n d hd; simp [natDigitsAux] at hd
  | succ f ih =>
    intro n d hd
    match n with
    | 0 => simp [natDigitsAux] at hd
    | m + 1 =>
      simp only [natDigitsAux, List.mem_cons] at hd
      rcases hd with h | h
      · omega
      · exact ih _ _ h

theorem decDigitChar_inj : ∀ a < 10, ∀ b < 10,
    decDigitChar a = decDigitChar b → a = b := by decide

theorem mapDecDigit_inj : ∀ l1 l2 : List Nat, (∀ d ∈ l1, d < 10) → (∀ d ∈ l2, d < 10) →
    l1.map decDigitChar = l2.map decDigitChar → l1 = l2 := by
  intro l1
  induction l1 with
  | nil => intro l2 _ _ h; cases l2 <;> simp_all
  | cons a as ih =>
    intro l2 h1 h2 h
    cases l2 with
    | nil => simp at h
    | cons b bs =>
      simp only [List.map_cons, List.cons.injEq] at h
      have ha : a < 10 := h1 a (List.mem_cons_self a as)
      have hb : b < 10 := h2 b (List.mem_cons_self b bs)
      have hab : a = b := decDigitChar_inj a ha b hb h.1
      have : as = bs := ih bs (fun d hd => h1 d (List.mem_cons_of_mem a hd))
        (fun d hd => h2 d (List.mem_cons_of_mem b hd)) h.2
      simp [hab, this]

theorem natStr_ne_zero_str : ∀ n, n ≠ 0 → natStr n ≠ "0" := by
  intro n hn h
  unfold natStr at h
  rw [if_neg hn] at h
  have hdat : (((natDigitsAux n n).reverse).map decDigitChar) = ['0'] := by
    have := congrArg String.data h
    simpa using this
  have hrev : (natDigitsAux n n).reverse = [0] := by
    apply mapDecDigit_inj _ _ (fun d hd => natDigitsAux_lt10 n n d (List.mem_reverse.mp hd))
      (by intro d hd; simp at hd; omega)
    simpa [decDigitChar] using hdat
  have hdig : natDigitsAux n n = [0] := by
    have := congrArg List.reverse hrev
    simpa using this
  have := natDigitsAux_spec n n (Nat.le_refl n)
  rw [hdig] at this
  simp [fromDecDigits] at this
  exact hn this.symm

theorem natStr_inj : ∀ m n : Nat, natStr m = natStr n → m = n := by
  intro m n h
  by_cases hm : m = 0
  · by_cases hn : n = 0
    · omega
    · exfalso; exact natStr_ne_zero_str n hn (by rw [← h, hm]; rfl)
  · by_cases hn : n = 0
    · exfalso; exact natStr_ne_zero_str m hm (by rw [h, hn]; rfl)
    · unfold natStr at h
      rw [if_neg hm, if_neg hn] at h
      have hdat := congrArg String.data h
      simp only [String.data] at hdat
      have hmap : ((natDigitsAux m m).reverse).map decDigitChar
          = ((natDigitsAux n n).reverse).map decDigitChar := hdat
      have hrev := mapDecDigit_inj _ _
        (fun d hd => natDigitsAux_lt10 m m d (List.mem_reverse.mp hd))
        (fun d hd => natDigitsAux_lt10 n n d (List.mem_reverse.mp hd)) hmap
      have hdig : natDigitsAux m m = natDigitsAux n n := by
        have := congrArg List.reverse hrev
        simpa using this
      have h1 := natDigitsAux_spec m m (Nat.le_refl m)
      have h2 := natDigitsAux_spec n n (Nat.le_refl n)
      rw [hdig, h2] at h1
      exact h1.symm

/-! ## Data model

Raw shopping-search listings and the two product shapes built from them.
`RawListing` models one entry of SerpAPI's `shopping_results`; every field is
optional since the code accesses them with `dict.get`.  Numeric prices are
modelled as their string rendering. -/

structure RawListing where
  title : Option String := none
  extracted_price : Option String := none
  thumbnail : Option String := none
  link : Option String := none
  product_link : Option String := none
  source : Option String := none
deriving DecidableEq, Repr

/-- Product dictionary built by `fetch_google_shopping_products` and
`fetch_specific_fallback_products` in `app.py`. -/
structure ProductA where
  name : String
  price : String
  image_url : String
  link : String
  source : String
deriving DecidableEq, Repr

/-- Product dictionary built by `search_clothing` in `backend/styloAI.py`
(also the shape of `api.py`'s `ProductInfo`). -/
structure ProductB where
  brand : String
  image_url : String
  product_link : String
deriving DecidableEq, Repr

/-- Embedding of Python truthiness of `dict.get(key)`: `None` and the empty
string are falsy. -/
def optTruthy : Option String → Bool
  | none => false
  | some s => strTruthy s

/-! ## ProductSearch (`app.py: fetch_google_shopping_products`)

The SerpAPI call itself is the oracle `serp`; an exception anywhere in the
`try` block yields the empty list (the `except` branch). -/

def fetch_google_shopping_products (search_query : String)
    (serp : Except String (List RawListing)) (limit : Nat := 5) : List ProductA :=
  match serp with
  | .error _ => []
  | .ok results =>
    ((results.take limit).filter fun r => optTruthy r.link && optTruthy r.thumbnail).map
      fun r =>
        { name := r.title.getD "N/A"
          price := r.extracted_price.getD "N/A"
          image_url := r.thumbnail.getD ""
          link := r.link.getD ""
          source := r.source.getD "Google Shopping" }

/-! ## ProductSearch (`backend/styloAI.py: search_clothing`) -/

def search_clothing (query : String)
    (serp : Except String (List RawListing)) (max_results : Nat := 10) : List ProductB :=
  match serp with
  | .error _ => []
  | .ok results =>
    (results.take max_results).map fun item =>
      { brand := item.source.getD "Unknown"
        image_url := item.thumbnail.getD "N/A"
        product_link := item.product_link.getD "N/A" }

/-! ## FallbackCatalog (`app.py: fetch_specific_fallback_products`) -/

def fallbackTable : List ProductA :=
  [ { name := "Long Dark Blue Wool Trench Coat", price := "$298",
      image_url := "https://nordstrom.com/cdn-images/product/dark-blue-trench.jpg",
      link := "https://www.nordstrom.com/s/long-dark-blue-wool-trench-coat/6789012",
      source := "Nordstrom" },
    { name := "Men's Navy Long Trench Coat", price := "$129",
      image_url := "https://images.asos-media.com/inv/media/12345678/large.jpg",
      link := "https://www.asos.com/men/coats-jackets/trench-coats/navy-long/prod/p987654",
      source := "ASOS" },
    { name := "Dark Blue Tailored Trench Coat", price := "$199",
      image_url := "https://static.zara.net/photos////2025/10/04/12345678.jpg?ts=1728040000",
      link := "https://www.zara.com/us/en/dark-blue-tailored-trench-coat-p112233.html",
      source := "Zara" },
    { name := "Men's Classic Dark Blue Trench", price := "$220",
      image_url := "https://s7d5.scene7.com/is/image/macys/12345678?$pdp$&wid=400",
      link := "https://www.macys.com/shop/product/mens-classic-dark-blue-trench-coat?ID=445566",
      source := "Macy's" },
    { name := "Vintage Dark Blue Mac Trench Coat", price := "$78",
      image_url := "https://images.asos-media.com/inv/media/98765432/large.jpg",
      link := "https://marketplace.asos.com/hot-milk-vintage/vintage-90s-mac-coat-navy-dark-blue-trench/prod/p789012",
      source := "ASOS Marketplace" } ]

def fetch_specific_fallback_products (user_message : String) (limit : Nat := 5) :
    List ProductA :=
  let fallback :=
    if strOccurs (strLower user_message) "trench coat"
        && strOccurs (strLower user_message) "dark blue" then fallbackTable else []
  fallback.take limit

/-! ## OutfitComposer (`backend/styloAI.py: generate_outfit_visualization`)

The Gemini response is modelled structurally: `genResponse = .ok none` covers
the `not response or not hasattr(response, 'candidates') or not
response.candidates` branch; `.ok (some parts)` is
`response.candidates[0].content.parts`; `.error e` is an exception raised by
`client.models.generate_content`.  Each part carries an optional text and an
optional inline payload; the payload is modelled by the outcome of
`Image.open(BytesIO(data)).save(output_path)` (decode-and-persist), which the
code performs as soon as it scans the part. -/

deriving instance DecidableEq for Except

structure SynthPart where
  text : Option String := none
  inline_data : Option (Except String Unit) := none
deriving DecidableEq, Repr

/-- Outcomes of the individual fallible steps inside
`generate_outfit_visualization`'s `try` block. -/
structure GovBehavior where
  /-- `Image.open(user_image_path)` -/
  userImage : Except String Unit := .ok ()
  /-- `requests.get(clothing_image_url)` + decode, for remote URLs -/
  downloadClothing : Except String Unit := .ok ()
  /-- `Image.open(clothing_image_url)`, for local paths -/
  openClothingLocal : Except String Unit := .ok ()
  /-- `client.models.generate_content(...)` and the shape of its response -/
  genResponse : Except String (Option (List SynthPart)) := .ok none
deriving DecidableEq, Repr

/-- The dictionary returned by `generate_outfit_visualization`.  The exception
path returns no `text_response` key, hence the `Option`. -/
structure GovResult where
  success : Bool
  message : String
  text_response : Option String
deriving DecidableEq, Repr

/-- The synthesis prompt (`product_info` branch of the source). -/
def makeSynthPrompt (product_info : Option ProductB) : String :=
  match product_info with
  | some info =>
    "Create a realistic image of this person wearing the clothing item shown in the second image.\n\nProduct: "
      ++ info.brand
      ++ "\n\nInstructions:\n- Keep the person's face, body type, and skin tone exactly as shown\n- Naturally fit the clothing item onto the person\n- Maintain realistic lighting and shadows\n- Ensure the clothing fits naturally and looks realistic\n- Keep the background similar or neutral\n\nGenerate a high-quality, photorealistic result."
  | none =>
    "Create a realistic image of this person wearing the clothing item shown in the second image. \nKeep the person's appearance natural and make the clothing fit realistically."

/-- The `for part in response.candidates[0].content.parts` loop: accumulate
text parts, decode-and-save inline parts (a raised decode/save error aborts the
scan and propagates to the outer `except`). -/
def scanParts : List SynthPart → Bool → String → Except String (Bool × String)
  | [], image_saved, text_response => .ok (image_saved, text_response)
  | p :: rest, image_saved, text_response =>
    match p.text with
    | some t => scanParts rest image_saved (text_response ++ t)
    | none =>
      match p.inline_data with
      | some save =>
        match save with
        | .error e => .error e
        | .ok () => scanParts rest true text_response
      | none => scanParts rest image_saved text_response

/-- Body of the `try` block of `generate_outfit_visualization`. -/
def govBody (clothing_image_url output_path : String) (product_info : Option ProductB)
    (b : GovBehavior) : Except String GovResult :=
  match b.userImage with
  | .error e => .error e
  | .ok () =>
    match (if strLeads clothing_image_url "http" then b.downloadClothing
           else b.openClothingLocal) with
    | .error e => .error e
    | .ok () =>
      let _prompt := makeSynthPrompt product_info
      match b.genResponse with
      | .error e => .error e
      | .ok none =>
        .ok { success := false
              message := "Gemini returned no response. The model may not support image generation."
              text_response := some "" }
      | .ok (some parts) =>
        match scanParts parts false "" with
        | .error e => .error e
        | .ok (image_saved, text_response) =>
          if image_saved then
            .ok { success := true
                  message := "Image saved to " ++ output_path
                  text_response := some text_response }
          else
            .ok { success := false
                  message := "No image data returned"
                  text_response := some text_response }

/-- `generate_outfit_visualization`: the whole body sits in a `try`; any
exception is caught and reported as a failure dictionary. -/
def generate_outfit_visualization (user_image_path clothing_image_url output_path : String)
    (product_info : Option ProductB) (b : GovBehavior) : GovResult :=
  match govBody clothing_image_url output_path product_info b with
  | .ok r => r
  | .error e => { success := false, message := "Error: " ++ e, text_response := none }

/-- Concatenation of the text segments the scan accumulates (text fields win
over inline data in the source's `if`/`elif`). -/
def textConcat : List SynthPart → String
  | [] => ""
  | p :: rest =>
    match p.text with
    | some t => t ++ textConcat rest
    | none => textConcat rest

/-! ## Artifact naming and the synthesis loop of `api.py: generate_outfit` -/

/-- `filename = f"outfit_{timestamp}_{i+1}_{product['brand'].replace(' ', '_')}.png"` -/
def outfitFilename (timestamp : String) (i : Nat) (brand : String) : String :=
  "outfit_" ++ timestamp ++ "_" ++ natStr (i + 1) ++ "_" ++ slugify brand ++ ".png"

def outputDir : String := "C:\\Users\\Rahul\\Stylo.ai\\backend\\clothing_images"

/-- `output_path = os.path.join(output_dir, filename)` -/
def outputFullPath (timestamp : String) (i : Nat) (brand : String) : String :=
  outputDir ++ "\\" ++ outfitFilename timestamp i brand

/-- One iteration of `api.py`'s generation loop: the call made for product `p`
at index `i` (`synth i` is the oracle for that item's synthesis). -/
def govAttempt (ref timestamp : String) (synth : Nat → GovBehavior)
    (i : Nat) (p : ProductB) : GovResult :=
  generate_outfit_visualization ref p.image_url (outputFullPath timestamp i p.brand)
    (some p) (synth i)

/-- The `for i, product in enumerate(products)` loop of `generate_outfit`:
returns the collected `generated_images` (successful filenames, in order)
paired with the full trace of attempts `(index, result)`. -/
def synthLoopAux (ref timestamp : String) (synth : Nat → GovBehavior) :
    List ProductB → Nat → List String × List (Nat × GovResult)
  | [], _ => ([], [])
  | p :: rest, i =>
    let r := govAttempt ref timestamp synth i p
    let tail := synthLoopAux ref timestamp synth rest (i + 1)
    ((if r.success then outfitFilename timestamp i p.brand :: tail.1 else tail.1),
     (i, r) :: tail.2)

def synthLoop (ref timestamp : String) (synth : Nat → GovBehavior)
    (products : List ProductB) : List String × List (Nat × GovResult) :=
  synthLoopAux ref timestamp synth products 0

/-- Index-tagging of a list (Python's `enumerate`). -/
def withIdxFrom : Nat → List α → List (Nat × α)
  | _, [] => []
  | i, a :: as => (i, a) :: withIdxFrom (i + 1) as

/-- `range' i n`: the indices `i, i+1, ..., i+n-1`. -/
def natRangeFrom : Nat → Nat → List Nat
  | _, 0 => []
  | i, n + 1 => i :: natRangeFrom (i + 1) n

/-- Did any synthesis attempt over `products` (starting at index `i`)
succeed?  This is the condition `generated_images` being non-empty tracks. -/
def anySuccessFrom (ref timestamp : String) (synth : Nat → GovBehavior) :
    List ProductB → Nat → Bool
  | [], _ => false
  | p :: rest, i =>
    (govAttempt ref timestamp synth i p).success
      || anySuccessFrom ref timestamp synth rest (i + 1)

def anySynthSuccess (ref timestamp : String) (synth : Nat → GovBehavior)
    (products : List ProductB) : Bool :=
  anySuccessFrom ref timestamp synth products 0

/-! ## `backend/api.py`: request model, response model, `generate_outfit` -/

/-- `GenerateOutfitRequest` with its pydantic defaults. -/
structure GenerateOutfitRequest where
  prompt : String
  reference_image : String := "C:\\Users\\Rahul\\Stylo.ai\\Images\\Rahul.jpg"
  max_results : Nat := 2
deriving DecidableEq, Repr

structure GenerateOutfitResponse where
  success : Bool
  message : String
  user_query : String
  parsed_query : String
  clothing_type : Option String
  style : Option String
  gender : Option String
  products : List ProductB
  generated_images : List String
  timestamp : String
deriving DecidableEq, Repr

/-- Outcome of the endpoint: a response body, or an `HTTPException` with a
status code and detail string. -/
inductive ApiResult where
  | ok (r : GenerateOutfitResponse)
  | err (status_code : Nat) (detail : String)
deriving DecidableEq, Repr

/-- External service calls, for tracing which collaborators a request touches. -/
inductive ExtCall where
  | completion
  | search (q : String)
  | synthesis
deriving DecidableEq, Repr

/-- The dictionary produced by `parse_natural_language_query`. -/
structure ParsedInfo where
  search_query : Option String
  clothing_type : Option String
  style : Option String
  gender : Option String
deriving DecidableEq, Repr

/-- Modelled from the spec: `parse_natural_language_query` is imported by
`api.py` from `styloAI` but its definition is absent from the sources.  Per
spec §4.1 (QueryRefiner) it issues one text-completion call extracting
shopping terms, and "if the call fails (timeout, quota, malformed response) or
returns an empty string, the refiner falls back to the raw prompt unmodified —
this is a non-fatal degraded path, not an error".  `refineResult` is the
completion oracle; the extracted attribute fields are free oracle inputs. -/
def parse_natural_language_query (prompt : String) (refineResult : Except String String)
    (clothing_type style gender : Option String) : ParsedInfo :=
  match refineResult with
  | .ok s =>
    if strTruthy s then
      { search_query := some s, clothing_type := clothing_type, style := style, gender := gender }
    else
      { search_query := some prompt, clothing_type := clothing_type, style := style, gender := gender }
  | .error _ =>
    { search_query := some prompt, clothing_type := clothing_type, style := style, gender := gender }

/-- Oracle bundle for one `/api/generate-outfit` request. -/
structure ApiOracle where
  refine : Except String String
  clothing_type : Option String := none
  style : Option String := none
  gender : Option String := none
  serp : Except String (List RawListing)
  synth : Nat → GovBehavior
  timestamp : String

def apiParsed (req : GenerateOutfitRequest) (o : ApiOracle) : ParsedInfo :=
  parse_natural_language_query req.prompt o.refine o.clothing_type o.style o.gender

/-- `search_query = parsed_info.get('search_query', request.prompt)` -/
def apiSearchQuery (req : GenerateOutfitRequest) (o : ApiOracle) : String :=
  (apiParsed req o).search_query.getD req.prompt

/-- `products = search_clothing(search_query, request.max_results)` -/
def apiProducts (req : GenerateOutfitRequest) (o : ApiOracle) : List ProductB :=
  search_clothing (apiSearchQuery req o) o.serp req.max_results

/-- The `/api/generate-outfit` handler (`api.py: generate_outfit`), paired
with the trace of external calls it makes.  `HTTPException`s raised in the
body re-raise unchanged through the `except HTTPException` clause. -/
def generate_outfit (req : GenerateOutfitRequest) (o : ApiOracle) :
    ApiResult × List ExtCall :=
  let search_query := apiSearchQuery req o
  let products := apiProducts req o
  if products.isEmpty then
    (.err 404 "No products found for the given query",
     [.completion, .search search_query])
  else
    let loop := synthLoop req.reference_image o.timestamp o.synth products
    let generated_images := loop.1
    let calls := ExtCall.completion :: .search search_query
      :: loop.2.map fun _ => ExtCall.synthesis
    if generated_images.isEmpty then
      (.err 500 "Failed to generate any outfit visualizations", calls)
    else
      (.ok { success := true
             message := "Successfully generated " ++ natStr generated_images.length
               ++ " outfit visualization(s)"
             user_query := req.prompt
             parsed_query := search_query
             clothing_type := (apiParsed req o).clothing_type
             style := (apiParsed req o).style
             gender := (apiParsed req o).gender
             products := products
             generated_images := generated_images
             timestamp := o.timestamp }, calls)

/-- The endpoint including pydantic validation of the request body: a missing
`prompt` field is rejected with a 422 before the handler runs; an empty string
satisfies `prompt: str`. -/
def apiEndpoint (promptField : Option String) (o : ApiOracle) :
    ApiResult × List ExtCall :=
  match promptField with
  | none => (.err 422 "Field required", [])
  | some p => generate_outfit { prompt := p } o

/-! ## `app.py`: the `/chat` endpoint -/

/-- Oracle bundle for one `/chat` request: the advisory completion, the
refinement completion, and the SerpAPI shopping results. -/
structure ChatOracle where
  advisory : Except String String
  refine : Except String String
  serp : Except String (List RawListing)

structure ChatOk where
  response : String
  products : List ProductA
deriving DecidableEq, Repr

inductive ChatResult where
  | ok (r : ChatOk)
  | err (status_code : Nat) (msg : String)
deriving DecidableEq, Repr

structure ChatOutput where
  result : ChatResult
  calls : List ExtCall
  fallbackConsulted : Bool
deriving DecidableEq, Repr

/-- The fallback markdown block appended to the answer when
`fallback_products` is non-empty. -/
def fallbackSection (fb : List ProductA) : String :=
  "\n\n## Fallback Specific Matches (Direct from Sites): 🛍️\n"
    ++ joinSep "\n" (fb.map fun p =>
        "- **" ++ p.name ++ "** - **" ++ p.price ++ "** ![Image](" ++ p.image_url
          ++ ") [Buy Now](" ++ p.link ++ ")")

/-- One product card of the `Top 5 Matches` section. -/
def productCard (ip : Nat × ProductA) : String :=
  "**" ++ natStr (ip.1 + 1) ++ ".** " ++ ip.2.name ++ " from " ++ ip.2.source
    ++ " - **" ++ ip.2.price ++ "**\n![Product](" ++ ip.2.image_url
    ++ ")\n[Buy Now](" ++ ip.2.link ++ ")\n"

/-- The `Top 5 Matches` markdown block (built over `products[:5]`). -/
def cardsSection (products : List ProductA) : String :=
  "\n\n## Top 5 Matches from Google Shopping: 👗🛍️\n"
    ++ joinSep "\n" ((withIdxFrom 0 (products.take 5)).map productCard)
    ++ "\n*Reply with a number (1-5) to pick one!*"

/-- The `/chat` handler (`app.py: chat`), with its external-call trace and a
flag recording whether the fallback-catalog branch ran.  `message` is
`data.get("message")`; a missing or empty message fails validation before the
`try` block.  Exceptions from either completion call hit the generic `except`
and return a 500 with `str(e)`; the SerpAPI call's failures are already
swallowed inside `fetch_google_shopping_products`. -/
def chat (message : Option String) (o : ChatOracle) : ChatOutput :=
  match message with
  | none => ⟨.err 400 "No message provided", [], false⟩
  | some user_message =>
    if !strTruthy user_message then ⟨.err 400 "No message provided", [], false⟩
    else
      match o.advisory with
      | .error e => ⟨.err 500 e, [.completion], false⟩
      | .ok answer0 =>
        match o.refine with
        | .error e => ⟨.err 500 e, [.completion, .completion], false⟩
        | .ok search_query =>
          let products0 := fetch_google_shopping_products search_query o.serp 5
          let consulted := decide (products0.length < 3)
          let fallback_products :=
            if products0.length < 3 then fetch_specific_fallback_products user_message 5
            else []
          let products := products0 ++ fallback_products
          let answer1 :=
            if products0.length < 3 && !fallback_products.isEmpty then
              answer0 ++ fallbackSection fallback_products
            else answer0
          let answer2 :=
            if !products.isEmpty then answer1 ++ cardsSection products else answer1
          ⟨.ok ⟨answer2, products⟩,
           [.completion, .completion, .search search_query], consulted⟩

/-! ## `backend/styloAI.py: main` — the CLI generation loop -/

/-- `output_path = f"generated_outfit_{query.replace(' ', '_')}_{i+1}_{...}.png"` -/
def mainOutputPath (query : String) (i : Nat) (brand : String) : String :=
  "generated_outfit_" ++ slugify query ++ "_" ++ natStr (i + 1) ++ "_"
    ++ slugify brand ++ ".png"

/-- The call `main` makes for product `p` at index `i`. -/
def mainGovAttempt (ref query : String) (synth : Nat → GovBehavior)
    (i : Nat) (p : ProductB) : GovResult :=
  generate_outfit_visualization ref p.image_url (mainOutputPath query i p.brand)
    (some p) (synth i)

/-- `num_to_generate = len(products) if generate_all else min(3, len(products))` -/
def mainNumToGenerate (generate_all : Bool) (products : List ProductB) : Nat :=
  if generate_all then products.length else min 3 products.length

/-- The `for i in range(num_to_generate)` loop of `main`: collected generated
output paths plus the full attempt trace. -/
def mainLoopAux (ref query : String) (synth : Nat → GovBehavior) :
    List ProductB → Nat → List String × List (Nat × GovResult)
  | [], _ => ([], [])
  | p :: rest, i =>
    let r := mainGovAttempt ref query synth i p
    let tail := mainLoopAux ref query synth rest (i + 1)
    ((if r.success then mainOutputPath query i p.brand :: tail.1 else tail.1),
     (i, r) :: tail.2)

/-- The generation phase of `main` (products already searched and non-empty
at this point in the source). -/
def mainGenerate (ref query : String) (synth : Nat → GovBehavior)
    (products : List ProductB) (generate_all : Bool) :
    List String × List (Nat × GovResult) :=
  mainLoopAux ref query synth (products.take (mainNumToGenerate generate_all products)) 0

/-! ## Helper lemmas about the loops and the response scan -/

theorem synthLoopAux_snd (ref ts : String) (synth : Nat → GovBehavior) :
    ∀ (ps : List ProductB) (i : Nat),
      (synthLoopAux ref ts synth ps i).2
        = (withIdxFrom i ps).map fun ip => (ip.1, govAttempt ref ts synth ip.1 ip.2) := by
  intro ps
  induction ps with
  | nil => intro i; rfl
  | cons p rest ih => intro i; simp [synthLoopAux, withIdxFrom, ih]

theorem mainLoopAux_snd (ref query : String) (synth : Nat → GovBehavior) :
    ∀ (ps : List ProductB) (i : Nat),
      (mainLoopAux ref query synth ps i).2
        = (withIdxFrom i ps).map fun ip => (ip.1, mainGovAttempt ref query synth ip.1 ip.2) := by
  intro ps
  induction ps with
  | nil => intro i; rfl
  | cons p rest ih => intro i; simp [mainLoopAux, withIdxFrom, ih]

theorem withIdxFrom_map_fst {α : Type} : ∀ (l : List α) (i : Nat),
    (withIdxFrom i l).map Prod.fst = natRangeFrom i l.length := by
  intro l
  induction l with
  | nil => intro i; rfl
  | cons a as ih => intro i; simp [withIdxFrom, natRangeFrom, ih]

theorem take_mainNum_length (generate_all : Bool) (ps : List ProductB) :
    (ps.take (mainNumToGenerate generate_all ps)).length
      = mainNumToGenerate generate_all ps := by
  simp only [List.length_take, mainNumToGenerate]
  cases generate_all <;> simp <;> omega

theorem synthLoopAux_fst_nil_iff (ref ts : String) (synth : Nat → GovBehavior) :
    ∀ (ps : List ProductB) (i : Nat),
      ((synthLoopAux ref ts synth ps i).1 = []
        ↔ anySuccessFrom ref ts synth ps i = false) := by
  intro ps
  induction ps with
  | nil => intro i; simp [synthLoopAux, anySuccessFrom]
  | cons p rest ih =>
    intro i
    simp only [synthLoopAux, anySuccessFrom, Bool.or_eq_false_iff]
    by_cases h : (govAttempt ref ts synth i p).success
    · simp [h]
    · simp only [Bool.not_eq_true] at h
      simp [h, ih (i + 1)]

theorem synthLoop_fst_nil_iff (ref ts : String) (synth : Nat → GovBehavior)
    (ps : List ProductB) :
    ((synthLoop ref ts synth ps).1 = [] ↔ anySynthSuccess ref ts synth ps = false) :=
  synthLoopAux_fst_nil_iff ref ts synth ps 0

theorem scanParts_ok : ∀ (parts : List SynthPart) (saved : Bool) (acc : String),
    (∀ p ∈ parts, ∀ s, p.text = none → p.inline_data = some s → s = Except.ok ()) →
    scanParts parts saved acc
      = .ok ((saved || parts.any fun p => p.text.isNone && p.inline_data.isSome),
             acc ++ textConcat parts) := by
  intro parts
  induction parts with
  | nil => intro saved acc _; simp [scanParts, textConcat, String.append_empty]
  | cons p rest ih =>
    intro saved acc hok
    have hrest : ∀ q ∈ rest, ∀ s, q.text = none → q.inline_data = some s → s = Except.ok () :=
      fun q hq => hok q (List.mem_cons_of_mem p hq)
    match htext : p.text with
    | some t =>
      simp only [scanParts, htext, textConcat, List.any_cons, htext, Option.isNone_some,
        Bool.false_and, Bool.false_or]
      rw [ih (saved) (acc ++ t) hrest]
      simp [String.append_assoc]
    | none =>
      match hinl : p.inline_data with
      | some s =>
        have hs : s = Except.ok () := hok p (List.mem_cons_self p rest) s htext hinl
        subst hs
        simp only [scanParts, htext, hinl, textConcat, List.any_cons, htext, hinl,
          Option.isNone_none, Option.isSome_some, Bool.true_and, Bool.true_or]
        rw [ih true acc hrest]
        simp
      | none =>
        simp only [scanParts, htext, hinl, textConcat, List.any_cons, htext, hinl,
          Option.isNone_none, Option.isSome_none, Bool.true_and, Bool.false_or]
        exact ih saved acc hrest

theorem outfitFilename_inj_idx (ts brand : String) (i j : Nat)
    (h : outfitFilename ts i brand = outfitFilename ts j brand) : i = j := by
  unfold outfitFilename at h
  have hd := congrArg String.data h
  simp only [String.data_append, List.append_assoc] at hd
  have h1 := List.append_cancel_left hd
  have h2 := List.append_cancel_left h1
  have h3 := List.append_cancel_left h2
  have h4 := List.append_cancel_right h3
  have h5 : natStr (i + 1) = natStr (j + 1) := String.ext h4
  have h6 := natStr_inj _ _ h5
  omega

theorem strTruthy_ne_empty (s : String) (h : strTruthy s = true) : s ≠ "" := by
  intro he
  rw [he] at h
  exact absurd h (by decide)

theorem fetch_length_le (q : String) (serp : Except String (List RawListing)) (limit : Nat) :
    (fetch_google_shopping_products q serp limit).length ≤ limit := by
  unfold fetch_google_shopping_products
  cases serp with
  | error e => simp
  | ok rs =>
    simp only [List.length_map]
    exact le_trans (List.length_filter_le _ _) (List.length_take_le limit rs)

theorem fallback_length_le (m : String) (limit : Nat) :
    (fetch_specific_fallback_products m limit).length ≤ limit := by
  unfold fetch_specific_fallback_products
  exact List.length_take_le _ _

theorem generate_outfit_404 (req : GenerateOutfitRequest) (o : ApiOracle)
    (h : (apiProducts req o).isEmpty = true) :
    (generate_outfit req o).1 = .err 404 "No products found for the given query" := by
  unfold generate_outfit
  simp [h]

theorem generate_outfit_500 (req : GenerateOutfitRequest) (o : ApiOracle)
    (h1 : (apiProducts req o).isEmpty = false)
    (h2 : anySynthSuccess req.reference_image o.timestamp o.synth (apiProducts req o) = false) :
    (generate_outfit req o).1 = .err 500 "Failed to generate any outfit visualizations" := by
  unfold generate_outfit
  have hnil : (synthLoop req.reference_image o.timestamp o.synth (apiProducts req o)).1 = [] :=
    (synthLoop_fst_nil_iff _ _ _ _).mpr h2
  simp [h1, hnil]

theorem generate_outfit_ok (req : GenerateOutfitRequest) (o : ApiOracle)
    (h1 : (apiProducts req o).isEmpty = false)
    (h2 : anySynthSuccess req.reference_image o.timestamp o.synth (apiProducts req o) = true) :
    ∃ r, (generate_outfit req o).1 = .ok r ∧ r.success = true
      ∧ r.generated_images ≠ []
      ∧ r.products = apiProducts req o
      ∧ r.generated_images
          = (synthLoop req.reference_image o.timestamp o.synth (apiProducts req o)).1 := by
  have hne : (synthLoop req.reference_image o.timestamp o.synth (apiProducts req o)).1 ≠ [] := by
    intro hh
    rw [(synthLoop_fst_nil_iff _ _ _ _).mp hh] at h2
    exact absurd h2 (by decide)
  have hneb : (synthLoop req.reference_image o.timestamp o.synth (apiProducts req o)).1.isEmpty
      = false := by
    cases hb : (synthLoop req.reference_image o.timestamp o.synth (apiProducts req o)).1.isEmpty
    · rfl
    · exact absurd (List.isEmpty_iff.mp hb) hne
  have hmain : (generate_outfit req o).1 = ApiResult.ok
      { success := true
        message := "Successfully generated "
          ++ natStr (synthLoop req.reference_image o.timestamp o.synth (apiProducts req o)).1.length
          ++ " outfit visualization(s)"
        user_query := req.prompt
        parsed_query := apiSearchQuery req o
        clothing_type := (apiParsed req o).clothing_type
        style := (apiParsed req o).style
        gender := (apiParsed req o).gender
        products := apiProducts req o
        generated_images := (synthLoop req.reference_image o.timestamp o.synth (apiProducts req o)).1
        timestamp := o.timestamp } := by
    unfold generate_outfit
    simp [h1, hneb]
  exact ⟨_, hmain, rfl, hne, rfl, rfl⟩

/-! ## Dissection lemmas for the `/chat` handler -/

theorem chat_invalid (m : String) (o : ChatOracle) (htm : strTruthy m = false) :
    chat (some m) o = ⟨.err 400 "No message provided", [], false⟩ := by
  unfold chat
  simp [htm]

theorem chat_advisory_error (m e : String) (o : ChatOracle) (htm : strTruthy m = true)
    (hadv : o.advisory = .error e) :
    chat (some m) o = ⟨.err 500 e, [.completion], false⟩ := by
  unfold chat
  rw [hadv]
  simp [htm]

theorem chat_refine_error (m a e : String) (o : ChatOracle) (htm : strTruthy m = true)
    (hadv : o.advisory = .ok a) (href : o.refine = .error e) :
    chat (some m) o = ⟨.err 500 e, [.completion, .completion], false⟩ := by
  unfold chat
  rw [hadv, href]
  simp [htm]

theorem chat_ok_shape (m a sq : String) (o : ChatOracle) (htm : strTruthy m = true)
    (hadv : o.advisory = .ok a) (href : o.refine = .ok sq) :
    ∃ ans,
      (chat (some m) o).result
        = .ok ⟨ans,
            fetch_google_shopping_products sq o.serp 5
              ++ (if (fetch_google_shopping_products sq o.serp 5).length < 3 then
                    fetch_specific_fallback_products m 5
                  else [])⟩
      ∧ (chat (some m) o).fallbackConsulted
          = decide ((fetch_google_shopping_products sq o.serp 5).length < 3)
      ∧ (chat (some m) o).calls = [.completion, .completion, .search sq] := by
  simp only [chat, hadv, href, htm, Bool.not_true, Bool.false_eq_true, if_false]
  exact ⟨_, rfl, by simp, by simp⟩

/-! ## Concrete fixtures for witnesses and counterexamples -/

def sampleListing1 : RawListing :=
  { title := some "Navy Trench A", extracted_price := some "100",
    thumbnail := some "http://img/a.jpg", link := some "http://shop/a",
    product_link := some "http://shop/a", source := some "ShopA" }

def sampleListing2 : RawListing :=
  { title := some "Navy Trench B", extracted_price := some "120",
    thumbnail := some "http://img/b.jpg", link := some "http://shop/b",
    product_link := some "http://shop/b", source := some "ShopB" }

/-- A raw listing with an empty thumbnail and no `product_link` field. -/
def sampleBadListing : RawListing := { thumbnail := some "", source := some "BrandX" }

/-- Synthesis behaviour: the service returns no usable response. -/
def noImageSynth : GovBehavior := { genResponse := .ok none }

/-- Synthesis behaviour: the service answers with text only, no inline image. -/
def textOnlySynth : GovBehavior :=
  { genResponse := .ok (some [{ text := some "I cannot generate this image." }]) }

/-- Synthesis behaviour: one inline image payload that decodes and saves. -/
def okSynth : GovBehavior := { genResponse := .ok (some [{ inline_data := some (.ok ()) }]) }

def sampleApiOracleFailSynth : ApiOracle :=
  { refine := .ok "q", serp := .ok [sampleListing1, sampleListing2],
    synth := fun _ => noImageSynth, timestamp := "t" }

def emptyPromptOracle : ApiOracle :=
  { refine := .ok "q", serp := .ok [], synth := fun _ => noImageSynth, timestamp := "t" }

def trenchMsg : String := "I want a dark blue trench coat"

def trenchChatOracle : ChatOracle :=
  { advisory := .ok "Here is advice.", refine := .ok "mens dark blue trench coat",
    serp := .ok [sampleListing1, sampleListing2] }

def refineFailOracle : ChatOracle :=
  { advisory := .ok "Here is advice.", refine := .error "quota exceeded", serp := .ok [] }

/-- Products carried by a chat result (empty for the error outcomes). -/
def chatProductsOf : ChatResult → List ProductA
  | .ok r => r.products
  | .err _ _ => []

/-! ## Claim theorems -/

/-- **C1**: for every `/api/generate-outfit` request, the outcome is a success
response (`success := true`, non-empty `generated_images`) iff at least one
`generate_outfit_visualization` attempt over the found products succeeded;
when no products are found the pipeline reports a distinct 404 failure, and
when products were found but every synthesis failed it reports a distinct 500
failure — in both failure cases no success response (hence no generated
images) is returned. -/
theorem overall_outcome_success_iff (req : GenerateOutfitRequest) (o : ApiOracle) :
    ((∃ r, (generate_outfit req o).1 = .ok r)
        ↔ ((apiProducts req o).isEmpty = false
            ∧ anySynthSuccess req.reference_image o.timestamp o.synth (apiProducts req o)
                = true))
      ∧ (∀ r, (generate_outfit req o).1 = .ok r →
          r.success = true ∧ r.generated_images ≠ [])
      ∧ ((apiProducts req o).isEmpty = true →
          (generate_outfit req o).1 = .err 404 "No products found for the given query")
      ∧ ((apiProducts req o).isEmpty = false →
          anySynthSuccess req.reference_image o.timestamp o.synth (apiProducts req o)
              = false →
          (generate_outfit req o).1
            = .err 500 "Failed to generate any outfit visualizations") := by
  refine ⟨⟨?_, ?_⟩, ?_, generate_outfit_404 req o, generate_outfit_500 req o⟩
  · rintro ⟨r, hr⟩
    cases he : (apiProducts req o).isEmpty with
    | true => rw [generate_outfit_404 req o he] at hr; simp at hr
    | false =>
      cases hs : anySynthSuccess req.reference_image o.timestamp o.synth (apiProducts req o) with
      | false => rw [generate_outfit_500 req o he hs] at hr; simp at hr
      | true => exact ⟨rfl, rfl⟩
  · rintro ⟨h1, h2⟩
    obtain ⟨r, hr, -, -, -, -⟩ := generate_outfit_ok req o h1 h2
    exact ⟨r, hr⟩
  · intro r hr
    cases he : (apiProducts req o).isEmpty with
    | true => rw [generate_outfit_404 req o he] at hr; simp at hr
    | false =>
      cases hs : anySynthSuccess req.reference_image o.timestamp o.synth (apiProducts req o) with
      | false => rw [generate_outfit_500 req o he hs] at hr; simp at hr
      | true =>
        obtain ⟨r0, hr0, hsucc, hne, -, -⟩ := generate_outfit_ok req o he hs
        rw [hr0] at hr
        injection hr with hrr
        subst hrr
        exact ⟨hsucc, hne⟩

/-- Witness for C1 at a concrete input: two products are found but both
synthesis attempts fail, and the pipeline reports the explicit 500 failure. -/
theorem overall_outcome_success_iff_witness :
    (generate_outfit { prompt := "hello" } sampleApiOracleFailSynth).1
      = .err 500 "Failed to generate any outfit visualizations" :=
  (overall_outcome_success_iff { prompt := "hello" } sampleApiOracleFailSynth).2.2.2
    (by decide) (by decide)

/-- **C2**: in both synthesis loops (`api.py: generate_outfit` and
`styloAI.py: main`), the attempt trace is exactly one entry per selected
product, in list order (indices `0, 1, ...`), and each entry's result is
computed solely from that item's own synthesis behaviour — so no item's
failure can remove or reorder the attempt of any other item. -/
theorem synthesis_loop_isolated (ref ts query : String) (synth : Nat → GovBehavior)
    (ps : List ProductB) (generate_all : Bool) :
    (synthLoop ref ts synth ps).2
        = (withIdxFrom 0 ps).map (fun ip => (ip.1, govAttempt ref ts synth ip.1 ip.2))
      ∧ (synthLoop ref ts synth ps).2.map Prod.fst = natRangeFrom 0 ps.length
      ∧ (mainGenerate ref query synth ps generate_all).2
          = (withIdxFrom 0 (ps.take (mainNumToGenerate generate_all ps))).map
              (fun ip => (ip.1, mainGovAttempt ref query synth ip.1 ip.2))
      ∧ (mainGenerate ref query synth ps generate_all).2.map Prod.fst
          = natRangeFrom 0 (mainNumToGenerate generate_all ps) := by
  refine ⟨synthLoopAux_snd ref ts synth ps 0, ?_, mainLoopAux_snd ref query synth _ 0, ?_⟩
  · rw [show (synthLoop ref ts synth ps).2 = _ from synthLoopAux_snd ref ts synth ps 0,
      List.map_map]
    have hcomp : (Prod.fst ∘ fun ip : Nat × ProductB =>
        (ip.1, govAttempt ref ts synth ip.1 ip.2)) = Prod.fst := rfl
    rw [hcomp, withIdxFrom_map_fst]
  · rw [show (mainGenerate ref query synth ps generate_all).2 = _ from
      mainLoopAux_snd ref query synth _ 0, List.map_map]
    have hcomp : (Prod.fst ∘ fun ip : Nat × ProductB =>
        (ip.1, mainGovAttempt ref query synth ip.1 ip.2)) = Prod.fst := rfl
    rw [hcomp, withIdxFrom_map_fst, take_mainNum_length]

/-- **C3** (counterexample): `search_clothing` does not discard raw listings
missing an image locator or product link — a listing with an empty thumbnail
and no `product_link` field is returned as a product whose image locator is
the empty string and whose link is the placeholder `"N/A"`. -/
theorem search_clothing_no_filter_cex :
    search_clothing "navy shirt" (.ok [sampleBadListing]) 10
        = [{ brand := "BrandX", image_url := "", product_link := "N/A" }]
      ∧ search_clothing "navy shirt" (.ok [sampleBadListing]) 10 ≠ [] := by
  exact ⟨by decide, by decide⟩

/-- **C3** (amended): `fetch_google_shopping_products` (app.py) does satisfy
the filter invariant — every returned product has a non-empty image locator
and a non-empty link; `search_clothing` (styloAI.py) performs no filtering at
all: it returns every listing up to the cap, substituting placeholders for
missing fields. -/
theorem product_filter_invariant :
    (∀ (q : String) (serp : Except String (List RawListing)) (limit : Nat) (p : ProductA),
        p ∈ fetch_google_shopping_products q serp limit → p.image_url ≠ "" ∧ p.link ≠ "")
      ∧ (∀ (q : String) (rs : List RawListing) (m : Nat),
          (search_clothing q (.ok rs) m).length = min m rs.length) := by
  constructor
  · intro q serp limit p hp
    unfold fetch_google_shopping_products at hp
    cases serp with
    | error e => simp at hp
    | ok rs =>
      rw [List.mem_map] at hp
      obtain ⟨r, hr, hpe⟩ := hp
      rw [List.mem_filter] at hr
      have hcond := hr.2
      rw [Bool.and_eq_true] at hcond
      obtain ⟨hlink, hthumb⟩ := hcond
      subst hpe
      constructor
      · show r.thumbnail.getD "" ≠ ""
        cases hth : r.thumbnail with
        | none => rw [hth] at hthumb; exact absurd hthumb (by decide)
        | some s =>
          rw [hth] at hthumb
          simpa using strTruthy_ne_empty s hthumb
      · show r.link.getD "" ≠ ""
        cases hl : r.link with
        | none => rw [hl] at hlink; exact absurd hlink (by decide)
        | some s =>
          rw [hl] at hlink
          simpa using strTruthy_ne_empty s hlink
  · intro q rs m
    unfold search_clothing
    simp [List.length_take]

/-- Witness for C3's amended invariant at a concrete listing. -/
theorem product_filter_invariant_witness :
    ({ name := "Navy Trench A", price := "100", image_url := "http://img/a.jpg",
       link := "http://shop/a", source := "ShopA" } : ProductA).image_url ≠ ""
      ∧ ({ name := "Navy Trench A", price := "100", image_url := "http://img/a.jpg",
           link := "http://shop/a", source := "ShopA" } : ProductA).link ≠ "" :=
  product_filter_invariant.1 "q" (.ok [sampleListing1]) 5 _ (by decide)

/-- A chat oracle whose live search yields nothing and whose prompt matches
no fallback rule. -/
def plainChatOracle : ChatOracle :=
  { advisory := .ok "Here is advice.", refine := .ok "plain shirt", serp := .ok [] }

/-- **C4** (counterexample): with two eligible live results and a prompt
matching the fallback rule, the `/chat` response carries `2 + 5 = 7` products
— the cap of 5 is exceeded because the fallback extend is not truncated. -/
theorem chat_products_exceed_cap_cex :
    (chatProductsOf (chat (some trenchMsg) trenchChatOracle).result).length = 7
      ∧ ¬ ((chatProductsOf (chat (some trenchMsg) trenchChatOracle).result).length ≤ 5) :=
  ⟨by decide, by decide⟩

/-- **C4** (amended): the `/api/generate-outfit` pipeline respects the cap
(`len(products) ≤ max_results`); the `/chat` pipeline respects the cap of 5
only when the fallback branch contributes nothing — in general the response
list is bounded by `7` (at most 2 live results below the trigger threshold
plus at most 5 fallback entries). -/
theorem products_cap_bounds :
    (∀ (req : GenerateOutfitRequest) (o : ApiOracle),
        (apiProducts req o).length ≤ req.max_results)
      ∧ (∀ (m : String) (o : ChatOracle) (r : ChatOk),
          (chat (some m) o).result = .ok r →
            r.products.length ≤ 7
              ∧ ((chat (some m) o).fallbackConsulted = false →
                  r.products.length ≤ 5)) := by
  constructor
  · intro req o
    unfold apiProducts search_clothing
    cases o.serp with
    | error e => simp
    | ok rs =>
      simp only [List.length_map, List.length_take]
      exact Nat.min_le_left _ _
  · intro m o r h
    cases htm : strTruthy m with
    | false => rw [chat_invalid m o htm] at h; simp at h
    | true =>
      cases hadv : o.advisory with
      | error e => rw [chat_advisory_error m e o htm hadv] at h; simp at h
      | ok a =>
        cases href : o.refine with
        | error e => rw [chat_refine_error m a e o htm hadv href] at h; simp at h
        | ok sq =>
          obtain ⟨ans, hres, hcons, -⟩ := chat_ok_shape m a sq o htm hadv href
          rw [hres] at h
          injection h with h
          subst h
          have hP0 : (fetch_google_shopping_products sq o.serp 5).length ≤ 5 :=
            fetch_length_le sq o.serp 5
          constructor
          · by_cases hlt : (fetch_google_shopping_products sq o.serp 5).length < 3
            · have hfb := fallback_length_le m 5
              simp only [List.length_append, if_pos hlt]
              omega
            · simp only [List.length_append, if_neg hlt, List.length_nil]
              omega
          · intro hcf
            rw [hcons] at hcf
            have hnlt : ¬ (fetch_google_shopping_products sq o.serp 5).length < 3 :=
              of_decide_eq_false hcf
            simp only [List.length_append, if_neg hnlt, List.length_nil]
            omega

/-- Witness for C4's amended bound at a concrete chat request. -/
theorem products_cap_bounds_witness :
    (⟨"Here is advice.", []⟩ : ChatOk).products.length ≤ 7 :=
  (products_cap_bounds.2 "x" plainChatOracle ⟨"Here is advice.", []⟩ (by decide)).1

/-- **C5** (counterexample): when the refinement completion raises, the
`/chat` pipeline does not fall back to the raw prompt — it aborts with a 500
error carrying the exception text, and no search call is made (only the two
completion calls appear in the trace). -/
theorem refine_failure_surfaces_error_cex :
    (chat (some "blue shirt") refineFailOracle).result = .err 500 "quota exceeded"
      ∧ (chat (some "blue shirt") refineFailOracle).calls
          = [ExtCall.completion, ExtCall.completion] :=
  ⟨by decide, by decide⟩

/-- **C5** (amended): in the `/chat` pipeline a refinement exception is
surfaced as a 500 error (no search performed), and whatever string the
refinement returns — including the empty string — is used unmodified as the
search query; only the `/api/generate-outfit` pipeline (whose parser is
modelled from the spec) falls back to the raw prompt when refinement fails. -/
theorem refine_degraded_paths :
    (∀ (m a e : String) (o : ChatOracle), strTruthy m = true →
        o.advisory = .ok a → o.refine = .error e →
          (chat (some m) o).result = .err 500 e
            ∧ (chat (some m) o).calls = [ExtCall.completion, ExtCall.completion])
      ∧ (∀ (m a sq : String) (o : ChatOracle), strTruthy m = true →
          o.advisory = .ok a → o.refine = .ok sq →
            ExtCall.search sq ∈ (chat (some m) o).calls)
      ∧ (∀ (req : GenerateOutfitRequest) (o : ApiOracle) (e : String),
          o.refine = .error e → apiSearchQuery req o = req.prompt) := by
  refine ⟨?_, ?_, ?_⟩
  · intro m a e o htm hadv href
    rw [chat_refine_error m a e o htm hadv href]
    exact ⟨rfl, rfl⟩
  · intro m a sq o htm hadv href
    obtain ⟨ans, -, -, hcalls⟩ := chat_ok_shape m a sq o htm hadv href
    rw [hcalls]
    simp
  · intro req o e h
    unfold apiSearchQuery apiParsed parse_natural_language_query
    rw [h]
    rfl

/-- Witness for C5's amended behaviour at a concrete input. -/
theorem refine_degraded_paths_witness :
    (chat (some "blue shirt") refineFailOracle).result = .err 500 "quota exceeded" :=
  (refine_degraded_paths.1 "blue shirt" "Here is advice." "quota exceeded"
    refineFailOracle (by decide) rfl rfl).1

/-- **C6**: the fallback catalog is consulted iff the filtered live-search
list has fewer than 3 items; its matches are appended after the live results;
and when the prompt matches no keyword rule it contributes an empty list
(without any failure — it is a total function). -/
theorem fallback_trigger_iff :
    (∀ (m a sq : String) (o : ChatOracle), strTruthy m = true →
        o.advisory = .ok a → o.refine = .ok sq →
          ((chat (some m) o).fallbackConsulted = true
              ↔ (fetch_google_shopping_products sq o.serp 5).length < 3)
            ∧ ∃ r, (chat (some m) o).result = .ok r
                ∧ r.products
                    = fetch_google_shopping_products sq o.serp 5
                      ++ (if (fetch_google_shopping_products sq o.serp 5).length < 3 then
                            fetch_specific_fallback_products m 5
                          else []))
      ∧ (∀ (msg : String) (limit : Nat),
          ¬ (strOccurs (strLower msg) "trench coat" = true
              ∧ strOccurs (strLower msg) "dark blue" = true) →
            fetch_specific_fallback_products msg limit = []) := by
  constructor
  · intro m a sq o htm hadv href
    obtain ⟨ans, hres, hcons, -⟩ := chat_ok_shape m a sq o htm hadv href
    constructor
    · rw [hcons]
      exact decide_eq_true_iff
    · exact ⟨_, hres, rfl⟩
  · intro msg limit h
    unfold fetch_specific_fallback_products
    have hc : ¬ ((strOccurs (strLower msg) "trench coat"
        && strOccurs (strLower msg) "dark blue") = true) := by
      intro hh
      rw [Bool.and_eq_true] at hh
      exact h ⟨hh.1, hh.2⟩
    rw [if_neg hc]
    simp

/-- Witness for C6 at a concrete input: the trench-coat request with two live
results triggers the fallback branch. -/
theorem fallback_trigger_iff_witness :
    ((chat (some trenchMsg) trenchChatOracle).fallbackConsulted = true
      ↔ (fetch_google_shopping_products "mens dark blue trench coat"
          trenchChatOracle.serp 5).length < 3) :=
  (fallback_trigger_iff.1 trenchMsg "Here is advice." "mens dark blue trench coat"
    trenchChatOracle (by decide) rfl rfl).1

/-- **C7**: for every synthesis-service response (once the reference and
garment images load): an absent/candidate-less response yields a failed
status with its fixed diagnostic and empty accompanying text; a response
whose parts carry no inline payload yields a failed status whose diagnostic
carries the concatenated textual explanation the service returned; and if an
inline image payload is present (and decoding/persisting succeeds, cf. the
`PersistenceFailure` taxonomy) the item is marked succeeded with the output
path in its message. -/
theorem gov_response_scan (user_image_path clothing_image_url output_path : String)
    (product_info : Option ProductB) (b : GovBehavior) (parts : List SynthPart)
    (hu : b.userImage = .ok ())
    (hd : b.downloadClothing = .ok ()) (hl : b.openClothingLocal = .ok ()) :
    (b.genResponse = .ok none →
        generate_outfit_visualization user_image_path clothing_image_url output_path
            product_info b
          = { success := false
              message := "Gemini returned no response. The model may not support image generation."
              text_response := some "" })
      ∧ (b.genResponse = .ok (some parts) →
          (∀ p ∈ parts, p.text = none → p.inline_data = none) →
          generate_outfit_visualization user_image_path clothing_image_url output_path
              product_info b
            = { success := false
                message := "No image data returned"
                text_response := some (textConcat parts) })
      ∧ (b.genResponse = .ok (some parts) →
          (∀ p ∈ parts, ∀ s, p.text = none → p.inline_data = some s → s = Except.ok ()) →
          (parts.any fun p => p.text.isNone && p.inline_data.isSome) = true →
          generate_outfit_visualization user_image_path clothing_image_url output_path
              product_info b
            = { success := true
                message := "Image saved to " ++ output_path
                text_response := some (textConcat parts) }) := by
  have hcl : (if strLeads clothing_image_url "http" then b.downloadClothing
      else b.openClothingLocal) = .ok () := by
    rw [hd, hl, ite_self]
  refine ⟨?_, ?_, ?_⟩
  · intro hg
    simp only [generate_outfit_visualization, govBody, hu, hcl, hg]
  · intro hg hno
    have hsaves : ∀ p ∈ parts, ∀ s, p.text = none → p.inline_data = some s →
        s = Except.ok () := by
      intro p hp s hpt hpi
      rw [hno p hp hpt] at hpi
      cases hpi
    have hany : (parts.any fun p => p.text.isNone && p.inline_data.isSome) = false := by
      rw [List.any_eq_false]
      intro p hp
      cases hpt : p.text with
      | some t => simp [hpt]
      | none => rw [hno p hp hpt]; simp [hpt]
    have hsc := scanParts_ok parts false "" hsaves
    rw [hany, Bool.or_false, String.empty_append] at hsc
    simp only [generate_outfit_visualization, govBody, hu, hcl, hg, hsc,
      Bool.false_eq_true, if_false]
  · intro hg hsaves hany
    have hsc := scanParts_ok parts false "" hsaves
    rw [hany, Bool.or_true, String.empty_append] at hsc
    simp only [generate_outfit_visualization, govBody, hu, hcl, hg, hsc, if_true]

/-- Witness for C7 at a concrete input: a text-only response yields a failed
status carrying the service's textual explanation. -/
theorem gov_response_scan_witness :
    generate_outfit_visualization "ref.jpg" "http://img/a.jpg" "out.png" none textOnlySynth
      = { success := false
          message := "No image data returned"
          text_response := some "I cannot generate this image." } :=
  (gov_response_scan "ref.jpg" "http://img/a.jpg" "out.png" none textOnlySynth
    [{ text := some "I cannot generate this image." }] rfl rfl rfl).2.1 rfl (by decide)

/-- **C8** (counterexample): the claim that any two distinct
(request, item-index) pairs processed concurrently get distinct filenames is
false — the name depends only on the second-granularity timestamp, the
sequence index, and the brand slug, so two distinct concurrent requests
(different request ids) sharing a timestamp produce identical names for the
same index and brand, and the later write overwrites the earlier one. -/
theorem filename_collision_cex :
    ¬ (∀ (rid1 rid2 idx1 idx2 : Nat) (ts b1 b2 : String),
        (rid1, idx1) ≠ (rid2, idx2) →
        outfitFilename ts idx1 b1 ≠ outfitFilename ts idx2 b2) := by
  intro h
  exact h 0 1 0 0 "20251012_120000" "Nike" "Nike" (by decide) rfl

/-- **C8** (amended): collision-freedom holds within a single request —
for a fixed timestamp and brand slug, distinct sequence indices give distinct
filenames — but not across concurrent requests that share the
second-granularity timestamp. -/
theorem filename_within_request_inj (ts brand : String) (i j : Nat)
    (h : outfitFilename ts i brand = outfitFilename ts j brand) : i = j :=
  outfitFilename_inj_idx ts brand i j h

/-- Witness for C8's amended statement at a concrete filename equation. -/
theorem filename_within_request_inj_witness : (1 : Nat) = 1 :=
  filename_within_request_inj "20251012_120000" "Nike" 1 1 rfl

/-- **C9** (counterexample): an empty-string prompt passes `api.py`'s request
validation (`prompt: str` has no emptiness constraint), so the pipeline runs
and makes external calls (refinement completion and shopping search) instead
of reporting a validation failure. -/
theorem empty_prompt_invokes_pipeline_cex :
    (apiEndpoint (some "") emptyPromptOracle).2
        = [ExtCall.completion, ExtCall.search "q"]
      ∧ (apiEndpoint (some "") emptyPromptOracle).1
          = .err 404 "No products found for the given query" :=
  ⟨by decide, by decide⟩

/-- **C9** (amended): a missing prompt is rejected before the pipeline runs
and with no external calls by both endpoints, and `/chat` also rejects the
empty message the same way; only `/api/generate-outfit` accepts an empty
prompt string. -/
theorem validation_immediate_no_calls :
    (∀ o : ChatOracle, chat none o = ⟨.err 400 "No message provided", [], false⟩)
      ∧ (∀ o : ChatOracle, chat (some "") o
          = ⟨.err 400 "No message provided", [], false⟩)
      ∧ (∀ o : ApiOracle, apiEndpoint none o = (.err 422 "Field required", [])) := by
  refine ⟨fun o => rfl, fun o => ?_, fun o => rfl⟩
  exact chat_invalid "" o (by decide)

/-- **C10**: `generate_outfit_visualization` is total at its interface: for
every combination of inputs and internal-step outcomes it returns a result
record (with a Boolean `success` and a string `message` — guaranteed by the
return type of the embedding); when any step of its body raises, the error is
caught and reported as `success := false` with the exception text in the
message, and otherwise the body's own result dictionary is returned. -/
theorem gov_never_raises (user_image_path clothing_image_url output_path : String)
    (product_info : Option ProductB) (b : GovBehavior) :
    (∃ r, govBody clothing_image_url output_path product_info b = .ok r
        ∧ generate_outfit_visualization user_image_path clothing_image_url output_path
            product_info b = r)
      ∨ (∃ e, govBody clothing_image_url output_path product_info b = .error e
          ∧ generate_outfit_visualization user_image_path clothing_image_url output_path
              product_info b
            = { success := false, message := "Error: " ++ e, text_response := none }) := by
  cases h : govBody clothing_image_url output_path product_info b with
  | ok r =>
    left
    exact ⟨r, rfl, by unfold generate_outfit_visualization; rw [h]⟩
  | error e =>
    right
    exact ⟨e, rfl, by unfold generate_outfit_visualization; rw [h]⟩
